import Mathlib

/-!
Shallow embedding of `src/chrome_scripts/chromedriver_updater.py`.

Conventions used throughout this development:
* Python values that can raise are embedded as `Except PyErr _`; an
  `Except.error` value models an exception propagating (uncaught) out of the
  embedded function, while `.ok` models a normal return.
* Side effects (subprocess invocations, HTTP requests, file writes, copies,
  permission changes) and every `logger.*` call are recorded in an `Event`
  trace returned alongside the result, in execution order.  The `tqdm`
  progress bar is an external observational collaborator and is not traced.
* Machine-level inputs that the script merely reacts to (the outcome of a
  subprocess, the HTTP status and body of a response, OS errors during copy /
  chmod / extraction) are passed in explicitly as parameters or through the
  `Env` structure consumed by `main`.
* Python `str` is embedded as Lean `String`; the regex class `\d` and the
  case folding of `str.lower` are embedded at ASCII granularity, which is
  exact on the ASCII data this script manipulates.
-/

namespace ChromedriverUpdater

/-- Embedded JSON values, the shape of `resp.json()` in the script. -/
inductive Json where
  | str (s : String)
  | num (n : Int)
  | bool (b : Bool)
  | null
  | arr (elems : List Json)
  | obj (fields : List (String × Json))

/-- Python exceptions that the embedded code can raise. -/
inductive PyErr where
  | keyError (key : String)
  | typeError (msg : String)
  | attributeError (attr : String)
  | indexError
  | httpError (status : Nat)
  | fileNotFoundError (msg : String)
deriving DecidableEq

/-- Observable actions of the script: every `logger.*` call and every
external side effect (subprocess, network, filesystem), in program order. -/
inductive Event where
  | logError (msg : String)
  | logWarning (msg : String)
  | logInfo (msg : String)
  | logSuccess (msg : String)
  | runChrome
  | httpGet (url : String)
  | writeFile (fn : String) (content : List Nat)
  | extract (zip_fn : String)
  | runWhich
  | copyFile (src dst : String)
  | chmod (path : String) (mode : Nat)
deriving DecidableEq

/-- Outcome of a `subprocess` invocation as seen by the script:
a normal exit with captured text, a `CalledProcessError` (non-zero exit,
carrying the captured output / stderr text), or a `FileNotFoundError`
(the executable is absent from the system). -/
inductive SubprocessOutcome where
  | success (output : String)
  | calledProcessError (output : String)
  | fileNotFoundError (msg : String)
deriving DecidableEq

/-- Python `s.split(sep)` for a single-character separator, on char lists.
`"".split(".") = [""]` and adjacent separators yield empty fields, exactly as
in Python. -/
def splitChar (c : Char) : List Char → List (List Char)
  | [] => [[]]
  | x :: xs =>
    let r := splitChar c xs
    if x = c then [] :: r
    else (x :: r.headD []) :: r.tail

/-- Python `s.split(sep)` for a single-character separator, on strings. -/
def pySplit (c : Char) (s : String) : List String :=
  (splitChar c s.data).map (fun l => String.mk l)

/-- Helper for Python's argumentless `str.split()`: groups of consecutive
non-whitespace characters, discarding all whitespace. -/
def wsGroupsAux (cur : List Char) : List Char → List (List Char)
  | [] => if cur.isEmpty then [] else [cur.reverse]
  | c :: cs =>
    if c.isWhitespace then
      if cur.isEmpty then wsGroupsAux [] cs
      else cur.reverse :: wsGroupsAux [] cs
    else wsGroupsAux (c :: cur) cs

/-- Python `s.split()` (split on whitespace runs, no empty fields). -/
def pySplitWs (s : String) : List String :=
  (wsGroupsAux [] s.data).map (fun l => String.mk l)

/-- Python `s.strip()`: remove leading and trailing whitespace. -/
def pyStrip (s : String) : String :=
  String.mk (((s.data.dropWhile Char.isWhitespace).reverse.dropWhile
    Char.isWhitespace).reverse)

/-- ASCII case folding of a single character (Python `str.lower` restricted
to the ASCII range handled by this script). -/
def asciiLower (c : Char) : Char :=
  if c.isUpper then Char.ofNat (c.toNat + 32) else c

/-- Python `s.lower()` at ASCII granularity. -/
def pyLower (s : String) : String :=
  String.mk (s.data.map asciiLower)

/-- One `\d+` step of the regex `\d+\.\d+\.\d+\.\d+` under `re.match`:
consume a non-empty maximal run of decimal digits, or fail.  Because `\d`
and `\.` are disjoint, the greedy maximal run is the only possible match. -/
def consumeNum : List Char → Option (List Char)
  | [] => none
  | c :: cs => if c.isDigit then some (cs.dropWhile Char.isDigit) else none

/-- One `\.` step of the regex: consume a literal dot, or fail. -/
def consumeDot : List Char → Option (List Char)
  | [] => none
  | c :: cs => if c = '.' then some cs else none

/-- `is_valid_version` (source lines 33-35):
`re.match(r'\d+\.\d+\.\d+\.\d+', chromedriver_version) is not None`.
`re.match` anchors at the start only, so this is a prefix match. -/
def is_valid_version (chromedriver_version : String) : Bool :=
  (Option.bind (Option.bind (Option.bind (Option.bind (Option.bind
    (Option.bind (consumeNum chromedriver_version.data)
      consumeDot) consumeNum) consumeDot) consumeNum) consumeDot)
        consumeNum).isSome

/-- Python subscription `j[k]` with a string key: returns the value in a
dict, raises `KeyError` when the key is missing, raises `TypeError` on
non-dict values (mirroring CPython's messages). -/
def pyGetItem (j : Json) (k : String) : Except PyErr Json :=
  match j with
  | .obj fields =>
    match fields.find? (fun kv => kv.1 == k) with
    | some kv => .ok kv.2
    | none => .error (.keyError k)
  | .arr _ => .error (.typeError "list indices must be integers or slices, not str")
  | .str _ => .error (.typeError "string indices must be integers")
  | .num _ => .error (.typeError "\x27int\x27 object is not subscriptable")
  | .bool _ => .error (.typeError "\x27bool\x27 object is not subscriptable")
  | .null => .error (.typeError "\x27NoneType\x27 object is not subscriptable")

/-- Python iteration `for x in j`: lists yield their elements, dicts their
keys, strings their characters; other values raise `TypeError`. -/
def pyIter (j : Json) : Except PyErr (List Json) :=
  match j with
  | .arr xs => .ok xs
  | .obj fs => .ok (fs.map (fun kv => Json.str kv.1))
  | .str s => .ok (s.data.map (fun c => Json.str (String.mk [c])))
  | _ => .error (.typeError "object is not iterable")

/-- Python truthiness of an `Optional[str]`: `None` and `""` are falsy. -/
def pyFalsyOpt (o : Option String) : Bool :=
  match o with
  | none => true
  | some s => s.data.isEmpty

/-- Python `repr`/`str` of a value of our `Json` type, as produced when a
dict is interpolated into an f-string (string escaping edge cases are not
needed by the data this script logs). -/
def pyReprJson : Json → String
  | .str s => "\x27" ++ s ++ "\x27"
  | .num n => toString n
  | .bool b => if b then "True" else "False"
  | .null => "None"
  | .arr xs => "[" ++ String.intercalate ", "
      (xs.attach.map (fun x => pyReprJson x.1)) ++ "]"
  | .obj fs => "\x7b" ++ String.intercalate ", "
      (fs.attach.map (fun kv =>
        "\x27" ++ kv.1.1 ++ "\x27: " ++ pyReprJson kv.1.2)) ++ "\x7d"
decreasing_by
  · have := List.sizeOf_lt_of_mem x.2
    simp_wf
    omega
  · obtain ⟨⟨k, v⟩, hmem⟩ := kv
    have := List.sizeOf_lt_of_mem hmem
    simp_wf
    simp only [Prod.mk.sizeOf_spec] at this
    omega

/-- `os.path.join(a, b)` (POSIX). -/
def osPathJoin (a b : String) : String :=
  if b.data.head? = some '/' then b
  else if a.data.isEmpty ∨ a.data.getLast? = some '/' then a ++ b
  else a ++ "/" ++ b

/-- `USER_PLATFORM` (source line 11). -/
def USER_PLATFORM : String := "linux64"

/-- The metadata feed URL (source line 38). -/
def latest_versions_url : String :=
  "https://googlechromelabs.github.io/chrome-for-testing/latest-versions-per-milestone-with-downloads.json"

/-- Log text of source line 42. -/
def msgBadStatus (status : Nat) : String :=
  "Resp. status code is not equal to 200. Resp. status code: " ++ toString status

/-- Log text of source line 50. -/
def msgNoMilestones : String :=
  "\x27milestones\x27 key does not exist inside \x27latest_versions_url\x27 JSON response."

/-- Log text of source line 56. -/
def msgNoMajor (m : String) : String :=
  "Major version key " ++ (m ++ " does not exist inside \x27latest_versions_url\x27 JSON response.")

/-- Log text of source line 62. -/
def msgNoDownloads : String :=
  "\x27downloads\x27 or \x27chrome\x27 key(s) does not exist inside \x27latest_versions_url\x27 JSON response."

/-- Log text of source line 74 (note: the f-string interpolates the whole
`major_version_dict`, not the major version string). -/
def msgNoUrl (major_version_dict : Json) (user_platform : String) : String :=
  "Was unable to retrieve chromedriver download URL for Chrome major version \x27" ++
    pyReprJson major_version_dict ++ "\x27 and user platform \x27" ++ user_platform ++ "\x27"

/-- `get_chrome_version` (source lines 13-31), parameterized by the outcome
of the `google-chrome --version` subprocess.  Only
`subprocess.CalledProcessError` is caught; a `FileNotFoundError` (browser
executable absent) propagates as an exception. -/
def get_chrome_version (r : SubprocessOutcome) :
    List Event × Except PyErr (Option String) :=
  match r with
  | .fileNotFoundError m => ([.runChrome], .error (.fileNotFoundError m))
  | .calledProcessError out =>
    ([.runChrome, .logError ("Error: " ++ pyStrip out)], .ok none)
  | .success out =>
    match (pySplitWs (pyStrip out)).getLast? with
    | none => ([.runChrome], .error .indexError)
    | some version =>
      if is_valid_version version then ([.runChrome], .ok (some version))
      else
        ([.runChrome,
          .logError ("Invalid Chrome version returned from subprocess: " ++ version)],
         .ok none)

/-- URL rewriting of source line 70:
`"/".join(download_url.split("/")[:-1]) + f"/chromedriver-{user_platform}.zip"`. -/
def rewriteUrl (download_url user_platform : String) : String :=
  String.intercalate "/" ((pySplit '/' download_url).dropLast) ++
    ("/chromedriver-" ++ user_platform ++ ".zip")

/-- The scan of source lines 65-71: linear walk over the downloads list,
`dict_i["platform"].lower() == user_platform.lower()`, first match rewritten
and returned.  The per-entry `["platform"]` / `["url"]` subscriptions are not
inside any `try`, so their `KeyError` (or a `TypeError` / `AttributeError`
on ill-typed entries) propagates. -/
def findDownloadUrl (user_platform : String) : List Json → Except PyErr (Option String)
  | [] => .ok none
  | dict_i :: rest =>
    match pyGetItem dict_i "platform" with
    | .error e => .error e
    | .ok pj =>
      match pj with
      | .str dict_i_platform =>
        if pyLower dict_i_platform = pyLower user_platform then
          match pyGetItem dict_i "url" with
          | .error e => .error e
          | .ok uj =>
            match uj with
            | .str download_url => .ok (some (rewriteUrl download_url user_platform))
            | _ => .error (.attributeError "split")
        else findDownloadUrl user_platform rest
      | _ => .error (.attributeError "lower")

/-- `get_chromedriver_download_url` (source lines 37-75), parameterized by
the status code and parsed JSON body of the metadata response.  The three
`try/except KeyError` blocks of the source are embedded as matches on
`Except.error (.keyError _)`; any other exception propagates. -/
def get_chromedriver_download_url (respStatus : Nat) (respBody : Json)
    (chrome_version user_platform : String) :
    List Event × Except PyErr (Option String) :=
  let ev0 := [Event.httpGet latest_versions_url]
  if respStatus ≠ 200 then
    (ev0 ++ [.logError (msgBadStatus respStatus)], .ok none)
  else
    let chromedriver_major_version := (pySplit '.' chrome_version).headD ""
    match pyGetItem respBody "milestones" with
    | .error (.keyError _) => (ev0 ++ [.logWarning msgNoMilestones], .ok none)
    | .error e => (ev0, .error e)
    | .ok milestones_dict =>
      match pyGetItem milestones_dict chromedriver_major_version with
      | .error (.keyError _) =>
        (ev0 ++ [.logWarning (msgNoMajor chromedriver_major_version)], .ok none)
      | .error e => (ev0, .error e)
      | .ok major_version_dict =>
        match (pyGetItem major_version_dict "downloads").bind
            (fun d => pyGetItem d "chrome") with
        | .error (.keyError _) => (ev0 ++ [.logWarning msgNoDownloads], .ok none)
        | .error e => (ev0, .error e)
        | .ok downloads_list_of_dicts =>
          match pyIter downloads_list_of_dicts with
          | .error e => (ev0, .error e)
          | .ok items =>
            match findDownloadUrl user_platform items with
            | .error e => (ev0, .error e)
            | .ok download_url =>
              (ev0 ++
                (if pyFalsyOpt download_url then
                  [.logError (msgNoUrl major_version_dict user_platform)]
                else []),
               .ok download_url)

/-- `download_chromedriver` (source lines 77-90), parameterized by the
archive response (status, optional Content-Length, body chunks as produced
by `iter_content`).  `resp.raise_for_status()` raises `HTTPError` on any
4xx/5xx status; otherwise all non-empty chunks are written to the file named
by the URL's last path segment (the `if chunk:` guard skips empty chunks;
the tqdm progress bar is not traced). -/
def download_chromedriver (status : Nat) (contentLength : Option Nat)
    (chunks : List (List Nat)) (chromedriver_download_url : String) :
    List Event × Except PyErr String :=
  let fn := (pySplit '/' chromedriver_download_url).getLastD ""
  let ev0 := [Event.httpGet chromedriver_download_url]
  if 400 ≤ status ∧ status < 600 then (ev0, .error (.httpError status))
  else
    let _pbar_total : Option Nat :=   -- `int(resp.headers.get("Content-Length", 0)) or None`
      match contentLength with
      | none => none
      | some 0 => none
      | some n => some n
    let content := (chunks.filter (fun c => ¬ c.isEmpty)).flatten
    (ev0 ++ [.writeFile fn content], .ok fn)

/-- `extract_zipped_file` (source lines 92-104), parameterized by whether the
zip extraction raised (and with what message).  On success the returned path
is `os.path.join(zip_fn.split(".")[0], "chromedriver")`: the filename is cut
at its FIRST dot, not at its extension. -/
def extract_zipped_file (extractErr : Option String) (zip_fn : String) :
    List Event × Except PyErr (Option String) :=
  match extractErr with
  | some e =>
    ([.extract zip_fn,
      .logError ("Something went wrong while extracting file: " ++ e)], .ok none)
  | none =>
    let zip_fn_wo_ext := (pySplit '.' zip_fn).headD ""
    ([.extract zip_fn], .ok (some (osPathJoin zip_fn_wo_ext "chromedriver")))

/-- `find_chromedriver_location` (source lines 106-119), parameterized by the
outcome of the `which chromedriver` subprocess. -/
def find_chromedriver_location (r : SubprocessOutcome) :
    List Event × Except PyErr (Option String) :=
  match r with
  | .fileNotFoundError m => ([.runWhich], .error (.fileNotFoundError m))
  | .calledProcessError err =>
    ([.runWhich, .logError ("Error: " ++ pyStrip err)], .ok none)
  | .success out => ([.runWhich], .ok (some (pyStrip out)))

/-- `move_extracted_chromedriver` (source lines 121-132), parameterized by
whether `shutil.copy` and `os.chmod` raise (with what message).  The single
`except Exception` catches any error from either step and returns `False`;
`os.chmod` runs only after a successful copy, with mode `0o755`. -/
def move_extracted_chromedriver (copyErr chmodErr : Option String)
    (extracted_chromedriver_fp os_chromedriver_location : String) :
    List Event × Except PyErr Bool :=
  match copyErr with
  | some e => ([.logError ("Error moving Chromedriver: " ++ e)], .ok false)
  | none =>
    match chmodErr with
    | some e =>
      ([.copyFile extracted_chromedriver_fp os_chromedriver_location,
        .logError ("Error moving Chromedriver: " ++ e)], .ok false)
    | none =>
      ([.copyFile extracted_chromedriver_fp os_chromedriver_location,
        .chmod os_chromedriver_location 0o755], .ok true)

/-- The external world as seen by one run of `main`: outcomes of the two
subprocesses, the metadata response, the archive response, and the possible
OS errors during extraction, copy and chmod.  (Network transport errors and
write failures of the local zip file are assumed absent; the script performs
no handling for them either.) -/
structure Env where
  chromeResult : SubprocessOutcome
  metadataStatus : Nat
  metadataBody : Json
  archiveStatus : Nat
  archiveContentLength : Option Nat
  archiveChunks : List (List Nat)
  extractError : Option String
  whichResult : SubprocessOutcome
  copyError : Option String
  chmodError : Option String

/-- `main` (source lines 134-161): the pipeline orchestrator.  Each stage's
falsy result short-circuits with a plain `return`; an exception from a stage
propagates (there is no `try` in `main`). -/
def main (env : Env) (user_platform : String := USER_PLATFORM) :
    List Event × Except PyErr Unit :=
  match get_chrome_version env.chromeResult with
  | (e1, .error err) => (e1, .error err)
  | (e1, .ok none) => (e1, .ok ())
  | (e1, .ok (some current_chrome_version)) =>
    if current_chrome_version.data.isEmpty then (e1, .ok ())
    else
      match get_chromedriver_download_url env.metadataStatus env.metadataBody
          current_chrome_version user_platform with
      | (e2, .error err) => (e1 ++ e2, .error err)
      | (e2, .ok none) => (e1 ++ e2, .ok ())
      | (e2, .ok (some chromedriver_download_url)) =>
        if chromedriver_download_url.data.isEmpty then (e1 ++ e2, .ok ())
        else
          let e3a := [Event.logInfo ("Starting to download chromedriver (version: " ++
            current_chrome_version ++ ", platform: " ++ user_platform ++ ")")]
          match download_chromedriver env.archiveStatus env.archiveContentLength
              env.archiveChunks chromedriver_download_url with
          | (e3, .error err) => (e1 ++ e2 ++ e3a ++ e3, .error err)
          | (e3, .ok downloaded_fn) =>
            if downloaded_fn.data.isEmpty then
              (e1 ++ e2 ++ e3a ++ e3 ++ [.logError "Failed to download chromedriver"], .ok ())
            else
              let e3b := e1 ++ e2 ++ e3a ++ e3 ++ [Event.logSuccess "Successfully downloaded chromedriver"]
              match extract_zipped_file env.extractError downloaded_fn with
              | (e4, .error err) => (e3b ++ e4, .error err)
              | (e4, .ok none) => (e3b ++ e4, .ok ())
              | (e4, .ok (some extracted_chromedriver_fp)) =>
                if extracted_chromedriver_fp.data.isEmpty then (e3b ++ e4, .ok ())
                else
                  match find_chromedriver_location env.whichResult with
                  | (e5, .error err) => (e3b ++ e4 ++ e5, .error err)
                  | (e5, .ok none) => (e3b ++ e4 ++ e5, .ok ())
                  | (e5, .ok (some os_chromedriver_location)) =>
                    if os_chromedriver_location.data.isEmpty then (e3b ++ e4 ++ e5, .ok ())
                    else
                      match move_extracted_chromedriver env.copyError env.chmodError
                          extracted_chromedriver_fp os_chromedriver_location with
                      | (e6, .error err) => (e3b ++ e4 ++ e5 ++ e6, .error err)
                      | (e6, .ok true) =>
                        (e3b ++ e4 ++ e5 ++ e6 ++
                          [.logSuccess "Chromedriver successfully updated for your OS."], .ok ())
                      | (e6, .ok false) => (e3b ++ e4 ++ e5 ++ e6, .ok ())

/-- Convenience document constructor: the well-formed shape of the metadata
feed, `{"milestones": {m: {"downloads": {"chrome": l}}}}`. -/
def mkDoc (m : String) (l : List Json) : Json :=
  .obj [("milestones", .obj [(m, .obj [("downloads", .obj [("chrome", .arr l)])])])]

/-- Spec-side predicate (from the spec's words, for comparison with the
code): a non-empty list of decimal digits. -/
def AllDigits (l : List Char) : Prop := ∀ x ∈ l, x.isDigit = true

/-- Spec-side predicate: the strict 4-integer dotted pattern, exactly
(four non-empty runs of decimal digits separated by literal dots). -/
def IsStrictDotted (l : List Char) : Prop :=
  ∃ a b c d : List Char,
    a ≠ [] ∧ b ≠ [] ∧ c ≠ [] ∧ d ≠ [] ∧
    AllDigits a ∧ AllDigits b ∧ AllDigits c ∧ AllDigits d ∧
    l = a ++ '.' :: (b ++ '.' :: (c ++ '.' :: d))

/-- Spec-side predicate: the string BEGINS with the strict 4-integer dotted
pattern (arbitrary trailing characters allowed). -/
def HasStrictDottedStart (s : String) : Prop :=
  ∃ p rest, s.data = p ++ rest ∧ IsStrictDotted p

/-! ## Helper lemmas about the version matcher -/

lemma consumeNum_some (l r : List Char) (h : consumeNum l = some r) :
    ∃ ds, ds ≠ [] ∧ AllDigits ds ∧ l = ds ++ r := by
  cases l with
  | nil => simp [consumeNum] at h
  | cons c cs =>
    simp only [consumeNum] at h
    split at h
    · rename_i hc
      injection h with h'
      refine ⟨c :: cs.takeWhile Char.isDigit, by simp, ?_, ?_⟩
      · intro x hx
        rcases List.mem_cons.mp hx with rfl | hx
        · exact hc
        · exact List.mem_takeWhile_imp hx
      · rw [← h', List.cons_append, List.takeWhile_append_dropWhile]
    · exact absurd h (by simp)

lemma dropWhile_digits_dot (ds r : List Char) (hd : AllDigits ds) :
    List.dropWhile Char.isDigit (ds ++ '.' :: r) = '.' :: r := by
  induction ds with
  | nil =>
    have hdot : ('.' : Char).isDigit = false := by decide
    simp [List.dropWhile_cons, hdot]
  | cons d ds ih =>
    have hdd : d.isDigit = true := hd d (List.mem_cons_self d ds)
    have hrest : AllDigits ds := fun x hx => hd x (List.mem_cons_of_mem d hx)
    simp [List.cons_append, List.dropWhile_cons, hdd, ih hrest]

lemma consumeNum_append_dot (ds r : List Char) (hne : ds ≠ []) (hd : AllDigits ds) :
    consumeNum (ds ++ '.' :: r) = some ('.' :: r) := by
  cases ds with
  | nil => exact absurd rfl hne
  | cons d ds =>
    have hdd : d.isDigit = true := hd d (List.mem_cons_self d ds)
    have hrest : AllDigits ds := fun x hx => hd x (List.mem_cons_of_mem d hx)
    simp only [List.cons_append, consumeNum, hdd, if_true]
    rw [dropWhile_digits_dot ds r hrest]

lemma consumeDot_some (l r : List Char) (h : consumeDot l = some r) : l = '.' :: r := by
  cases l with
  | nil => simp [consumeDot] at h
  | cons c cs =>
    simp only [consumeDot] at h
    split at h
    · rename_i hc
      injection h with h'
      rw [hc, h']
    · exact absurd h (by simp)

lemma consumeDot_cons (x : List Char) : consumeDot ('.' :: x) = some x := by
  simp [consumeDot]

lemma consumeNum_cons_digit (c : Char) (t : List Char) (h : c.isDigit = true) :
    (consumeNum (c :: t)).isSome = true := by
  simp [consumeNum, h]

/-! ## Claim C1 -/

/-- Claim C1, counterexample: the claim says every string that merely begins
with a valid 4-integer dotted prefix but has trailing characters is rejected;
`is_valid_version` uses `re.match`, which anchors only at the start, so
`"1.2.3.4abc"` is accepted. -/
theorem c1_counterexample : is_valid_version "1.2.3.4abc" = true := by rfl

/-- Claim C1, amended: `is_valid_version` returns `true` exactly on the
strings that BEGIN with the 4-integer dotted pattern (trailing characters,
including further dotted components, are accepted); strings such as
`"abc"`, `"1.2.3"` and `""` are rejected, and exact 4-integer dotted strings
are accepted. -/
theorem c1_theorem :
    (∀ s : String, is_valid_version s = true ↔ HasStrictDottedStart s)
    ∧ is_valid_version "abc" = false
    ∧ is_valid_version "1.2.3" = false
    ∧ is_valid_version "" = false
    ∧ is_valid_version "123.0.6312.58" = true := by
  refine ⟨fun s => ⟨fun h => ?_, fun h => ?_⟩, by rfl, by rfl, by rfl, by rfl⟩
  · unfold is_valid_version at h
    cases h1 : consumeNum s.data with
    | none => rw [h1] at h; simp at h
    | some r1 =>
    rw [h1] at h; simp only [Option.some_bind] at h
    cases h2 : consumeDot r1 with
    | none => rw [h2] at h; simp at h
    | some r2 =>
    rw [h2] at h; simp only [Option.some_bind] at h
    cases h3 : consumeNum r2 with
    | none => rw [h3] at h; simp at h
    | some r3 =>
    rw [h3] at h; simp only [Option.some_bind] at h
    cases h4 : consumeDot r3 with
    | none => rw [h4] at h; simp at h
    | some r4 =>
    rw [h4] at h; simp only [Option.some_bind] at h
    cases h5 : consumeNum r4 with
    | none => rw [h5] at h; simp at h
    | some r5 =>
    rw [h5] at h; simp only [Option.some_bind] at h
    cases h6 : consumeDot r5 with
    | none => rw [h6] at h; simp at h
    | some r6 =>
    rw [h6] at h; simp only [Option.some_bind] at h
    rw [Option.isSome_iff_exists] at h
    obtain ⟨r7, h7⟩ := h
    obtain ⟨a1, ha1ne, ha1d, he1⟩ := consumeNum_some _ _ h1
    have he2 := consumeDot_some _ _ h2
    obtain ⟨a2, ha2ne, ha2d, he3⟩ := consumeNum_some _ _ h3
    have he4 := consumeDot_some _ _ h4
    obtain ⟨a3, ha3ne, ha3d, he5⟩ := consumeNum_some _ _ h5
    have he6 := consumeDot_some _ _ h6
    obtain ⟨a4, ha4ne, ha4d, he7⟩ := consumeNum_some _ _ h7
    refine ⟨a1 ++ '.' :: (a2 ++ '.' :: (a3 ++ '.' :: a4)), r7, ?_,
      a1, a2, a3, a4, ha1ne, ha2ne, ha3ne, ha4ne, ha1d, ha2d, ha3d, ha4d, rfl⟩
    rw [he1, he2, he3, he4, he5, he6, he7]
    simp [List.append_assoc, List.cons_append]
  · obtain ⟨p, rest, hs, a, b, c, d, hane, hbne, hcne, hdne, had, hbd, hcd, hdd, hp⟩ := h
    have hdata : s.data = a ++ '.' :: (b ++ '.' :: (c ++ '.' :: (d ++ rest))) := by
      rw [hs, hp]; simp [List.append_assoc, List.cons_append]
    unfold is_valid_version
    rw [hdata, consumeNum_append_dot a _ hane had]
    simp only [Option.some_bind]
    rw [consumeDot_cons]
    simp only [Option.some_bind]
    rw [consumeNum_append_dot b _ hbne hbd]
    simp only [Option.some_bind]
    rw [consumeDot_cons]
    simp only [Option.some_bind]
    rw [consumeNum_append_dot c _ hcne hcd]
    simp only [Option.some_bind]
    rw [consumeDot_cons]
    simp only [Option.some_bind]
    cases d with
    | nil => exact absurd rfl hdne
    | cons d0 d' =>
      have hd0 : d0.isDigit = true := hdd d0 (List.mem_cons_self d0 d')
      rw [List.cons_append]
      exact consumeNum_cons_digit d0 _ hd0

/-! ## Helper lemmas about the release resolver -/

lemma findDownloadUrl_hit (p : String) (e : Json) (rest : List Json) (pe ue : String)
    (hp : pyGetItem e "platform" = .ok (.str pe)) (hm : pyLower pe = pyLower p)
    (hu : pyGetItem e "url" = .ok (.str ue)) :
    findDownloadUrl p (e :: rest) = .ok (some (rewriteUrl ue p)) := by
  simp [findDownloadUrl, hp, hm, hu]

lemma findDownloadUrl_skip (p : String) (e : Json) (rest : List Json) (pe : String)
    (hp : pyGetItem e "platform" = .ok (.str pe)) (hm : pyLower pe ≠ pyLower p) :
    findDownloadUrl p (e :: rest) = findDownloadUrl p rest := by
  simp [findDownloadUrl, hp, hm]

lemma findDownloadUrl_append (p : String) (l₁ l₂ : List Json)
    (hpre : ∀ x ∈ l₁, ∃ px, pyGetItem x "platform" = .ok (.str px) ∧
      pyLower px ≠ pyLower p) :
    findDownloadUrl p (l₁ ++ l₂) = findDownloadUrl p l₂ := by
  induction l₁ with
  | nil => simp
  | cons e l₁ ih =>
    obtain ⟨px, hp, hm⟩ := hpre e (List.mem_cons_self e l₁)
    rw [List.cons_append, findDownloadUrl_skip p e _ px hp hm]
    exact ih (fun x hx => hpre x (List.mem_cons_of_mem e hx))

lemma findDownloadUrl_some (p : String) : ∀ (l : List Json) (u : String),
    findDownloadUrl p l = .ok (some u) → ∃ x, u = rewriteUrl x p := by
  intro l
  induction l with
  | nil => intro u h; simp [findDownloadUrl] at h
  | cons e rest ih =>
    intro u h
    simp only [findDownloadUrl] at h
    split at h
    · simp at h
    · split at h
      · split at h
        · split at h
          · simp at h
          · split at h
            · simp only [Except.ok.injEq, Option.some.injEq] at h
              exact ⟨_, h.symm⟩
            · simp at h
        · exact ih u h
      · simp at h

lemma isEmpty_append_cons (A : List Char) (c : Char) (B : List Char) :
    (A ++ (c :: B)).isEmpty = false := by
  cases A <;> rfl

lemma rewriteUrl_data_ne_empty (x p : String) :
    (rewriteUrl x p).data.isEmpty = false := by
  rw [rewriteUrl, String.data_append, String.data_append, String.data_append]
  have hch : ("/chromedriver-" : String).data = '/' :: "chromedriver-".data := rfl
  rw [hch]
  simp only [List.cons_append]
  exact isEmpty_append_cons _ _ _

/-- Evaluation of the resolver on a well-shaped document, reduced to the
downloads-list scan. -/
lemma get_mkDoc_found (version p : String) (l : List Json) (u : String)
    (h : findDownloadUrl p l = .ok (some u)) (hu : u.data.isEmpty = false) :
    get_chromedriver_download_url 200 (mkDoc ((pySplit '.' version).headD "") l)
      version p = ([.httpGet latest_versions_url], .ok (some u)) := by
  simp [get_chromedriver_download_url, mkDoc, pyGetItem, pyIter, Except.bind,
    List.find?_cons_of_pos, beq_self_eq_true, h, pyFalsyOpt, hu]

/-! ## Claim C2 -/

/-- Claim C2, counterexample: this document's major-version entry contains a
well-formed download descriptor whose platform equals the configured platform,
yet resolution raises an uncaught `KeyError` because the preceding descriptor
lacks a `"platform"` key (the per-entry subscription is outside every
`try`), instead of succeeding as the claim states. -/
theorem c2_counterexample :
    get_chromedriver_download_url 200
      (mkDoc "123"
        [.obj [("url", .str "https://y/123.0.0.0/chrome-linux64.zip")],
         .obj [("platform", .str "linux64"),
               ("url", .str "https://x/123.0.0.0/chrome-linux64.zip")]])
      "123.0.0.0" "linux64"
    = ([.httpGet latest_versions_url], .error (.keyError "platform")) := by rfl

/-- Claim C2, amended: provided every descriptor before the first
case-insensitive platform match carries a string `"platform"` field, and the
first match carries a string `"url"` field, resolution succeeds and returns
that URL with its final path segment replaced by
`"chromedriver-<platform>.zip"`. -/
theorem c2_theorem (chrome_version user_platform : String) (l₁ l₂ : List Json)
    (e : Json) (pe ue : String)
    (hpre : ∀ x ∈ l₁, ∃ px, pyGetItem x "platform" = .ok (.str px) ∧
      pyLower px ≠ pyLower user_platform)
    (hp : pyGetItem e "platform" = .ok (.str pe))
    (hm : pyLower pe = pyLower user_platform)
    (hu : pyGetItem e "url" = .ok (.str ue)) :
    get_chromedriver_download_url 200
      (mkDoc ((pySplit '.' chrome_version).headD "") (l₁ ++ e :: l₂))
      chrome_version user_platform
    = ([.httpGet latest_versions_url], .ok (some (rewriteUrl ue user_platform))) := by
  apply get_mkDoc_found
  · rw [findDownloadUrl_append user_platform l₁ (e :: l₂) hpre,
      findDownloadUrl_hit user_platform e l₂ pe ue hp hm hu]
  · exact rewriteUrl_data_ne_empty ue user_platform

/-- Claim C2, witness: the spec's own example, with the metadata platform
`"Linux64"` matched case-insensitively against configured `"linux64"`. -/
theorem c2_witness :
    get_chromedriver_download_url 200
      (mkDoc "123" [.obj [("platform", .str "Linux64"),
        ("url", .str "https://x/123.0.0.0/chrome-linux64.zip")]])
      "123.0.0.0" "linux64"
    = ([.httpGet latest_versions_url],
       .ok (some "https://x/123.0.0.0/chromedriver-linux64.zip")) := by
  have h := c2_theorem "123.0.0.0" "linux64" [] []
    (.obj [("platform", .str "Linux64"),
      ("url", .str "https://x/123.0.0.0/chrome-linux64.zip")])
    "Linux64" "https://x/123.0.0.0/chrome-linux64.zip"
    (by simp) rfl (by rfl) rfl
  exact h

/-! ## Claim C10 -/

/-- Claim C10: when the downloads list contains several matching descriptors,
the scan stops at the first one: the result is the head descriptor's URL
rewritten, whatever the rest of the list contains. -/
theorem c10_theorem (chrome_version user_platform : String) (rest : List Json)
    (e : Json) (pe ue : String)
    (hp : pyGetItem e "platform" = .ok (.str pe))
    (hm : pyLower pe = pyLower user_platform)
    (hu : pyGetItem e "url" = .ok (.str ue)) :
    get_chromedriver_download_url 200
      (mkDoc ((pySplit '.' chrome_version).headD "") (e :: rest))
      chrome_version user_platform
    = ([.httpGet latest_versions_url], .ok (some (rewriteUrl ue user_platform))) := by
  apply get_mkDoc_found
  · rw [findDownloadUrl_hit user_platform e rest pe ue hp hm hu]
  · exact rewriteUrl_data_ne_empty ue user_platform

/-- Claim C10, witness: two descriptors both match `"linux64"`; the resolved
URL comes from the first one. -/
theorem c10_witness :
    get_chromedriver_download_url 200
      (mkDoc "123"
        [.obj [("platform", .str "linux64"),
               ("url", .str "https://x/first/chrome-linux64.zip")],
         .obj [("platform", .str "linux64"),
               ("url", .str "https://x/second/chrome-linux64.zip")]])
      "123.0.0.0" "linux64"
    = ([.httpGet latest_versions_url],
       .ok (some "https://x/first/chromedriver-linux64.zip")) := by
  have h := c10_theorem "123.0.0.0" "linux64"
    [.obj [("platform", .str "linux64"),
           ("url", .str "https://x/second/chrome-linux64.zip")]]
    (.obj [("platform", .str "linux64"),
           ("url", .str "https://x/first/chrome-linux64.zip")])
    "linux64" "https://x/first/chrome-linux64.zip" rfl rfl rfl
  exact h

/-! ## Claim C9 -/

/-- Claim C9: whenever resolution returns a URL, that URL ends with
`"/chromedriver-<user_platform>.zip"` built from the caller's platform string
verbatim (original casing), not from the matched entry's platform field. -/
theorem c9_theorem (respStatus : Nat) (respBody : Json)
    (chrome_version user_platform : String) (ev : List Event) (u : String)
    (h : get_chromedriver_download_url respStatus respBody chrome_version
      user_platform = (ev, .ok (some u))) :
    ∃ pre, u = pre ++ ("/chromedriver-" ++ user_platform ++ ".zip") := by
  simp only [get_chromedriver_download_url] at h
  split at h
  · simp at h
  · split at h
    · simp at h
    · simp at h
    · split at h
      · simp at h
      · simp at h
      · split at h
        · simp at h
        · simp at h
        · split at h
          · simp at h
          · split at h
            · simp at h
            · rename_i res heq
              have h2 : res = some u := by
                have h3 := congrArg Prod.snd h
                simpa using h3
              rw [h2] at heq
              obtain ⟨x, hx⟩ := findDownloadUrl_some user_platform _ u heq
              exact ⟨String.intercalate "/" ((pySplit '/' x).dropLast), hx⟩

/-- Claim C9, witness: configured platform `"Linux64"` against a metadata
entry whose platform field is `"linux64"`: the URL ends in
`"chromedriver-Linux64.zip"`, preserving the caller's casing. -/
theorem c9_witness :
    get_chromedriver_download_url 200
      (mkDoc "123" [.obj [("platform", .str "linux64"),
        ("url", .str "https://x/123.0.0.0/chrome-linux64.zip")]])
      "123.0.0.0" "Linux64"
    = ([.httpGet latest_versions_url],
       .ok (some "https://x/123.0.0.0/chromedriver-Linux64.zip"))
    ∧ ∃ pre, "https://x/123.0.0.0/chromedriver-Linux64.zip"
        = pre ++ ("/chromedriver-" ++ "Linux64" ++ ".zip") := by
  refine ⟨by rfl, ?_⟩
  exact c9_theorem 200
    (mkDoc "123" [.obj [("platform", .str "linux64"),
      ("url", .str "https://x/123.0.0.0/chrome-linux64.zip")]])
    "123.0.0.0" "Linux64" [.httpGet latest_versions_url]
    "https://x/123.0.0.0/chromedriver-Linux64.zip" (by rfl)

/-! ## Claim C3 -/

/-- Claim C3, counterexample: a document whose downloads list holds an entry
without a `"platform"` key makes the resolver raise an uncaught `KeyError`
(the per-entry subscriptions of the scan are outside every `try`),
contradicting the claim that a missing key at any level yields a reported
failure signal. -/
theorem c3_counterexample :
    get_chromedriver_download_url 200 (mkDoc "123" [.obj []]) "123.0.0.0" "linux64"
    = ([.httpGet latest_versions_url], .error (.keyError "platform")) := by rfl

/-- Claim C3, amended: the absence of the top-level `"milestones"` key, of
the major-version entry, or of the `"downloads"`/`"chrome"` keys is reported
(logged warning) and yields a `None` failure signal without an exception;
but the absence of the per-entry `"platform"` (or `"url"`) key inside the
downloads list raises an uncaught `KeyError` past the resolver's boundary. -/
theorem c3_theorem (version platform : String) :
    (get_chromedriver_download_url 200 (.obj []) version platform
      = ([.httpGet latest_versions_url, .logWarning msgNoMilestones], .ok none))
    ∧ (get_chromedriver_download_url 200 (.obj [("milestones", .obj [])])
        version platform
      = ([.httpGet latest_versions_url,
          .logWarning (msgNoMajor ((pySplit '.' version).headD ""))], .ok none))
    ∧ (get_chromedriver_download_url 200
        (.obj [("milestones", .obj [((pySplit '.' version).headD "", .obj [])])])
        version platform
      = ([.httpGet latest_versions_url, .logWarning msgNoDownloads], .ok none))
    ∧ (get_chromedriver_download_url 200
        (mkDoc ((pySplit '.' version).headD "") [.obj []]) version platform
      = ([.httpGet latest_versions_url], .error (.keyError "platform"))) := by
  refine ⟨?_, ?_, ?_, ?_⟩
  · simp [get_chromedriver_download_url, pyGetItem, List.find?]
  · simp [get_chromedriver_download_url, pyGetItem, List.find?,
      List.find?_cons_of_pos, beq_self_eq_true]
  · simp [get_chromedriver_download_url, pyGetItem, List.find?,
      List.find?_cons_of_pos, beq_self_eq_true, Except.bind]
  · simp [get_chromedriver_download_url, mkDoc, pyGetItem, pyIter,
      findDownloadUrl, List.find?, List.find?_cons_of_pos, beq_self_eq_true,
      Except.bind]

/-! ## Claim C6 -/

lemma ne_of_head (a b : String) (h : a.data.head? ≠ b.data.head?) : a ≠ b :=
  fun he => h (by rw [he])

lemma msgNoMajor_head (m : String) : (msgNoMajor m).data.head? = some 'M' := by
  rw [msgNoMajor, String.data_append]
  rfl

/-- Claim C6: the three schema defects — missing `"milestones"` key, missing
major-version entry, missing `"downloads"`/`"chrome"` keys — each produce a
distinct logged failure message that names the missing key (and, for the
missing major version, names that version), and each makes resolution return
the `None` failure signal. -/
theorem c6_theorem (version platform : String) (doc1 ms2 dl3 : Json)
    (h1 : pyGetItem doc1 "milestones" = .error (.keyError "milestones"))
    (h2 : pyGetItem ms2 ((pySplit '.' version).headD "")
      = .error (.keyError ((pySplit '.' version).headD "")))
    (h3 : ∃ k, (pyGetItem dl3 "downloads").bind (fun d => pyGetItem d "chrome")
      = .error (.keyError k)) :
    (get_chromedriver_download_url 200 doc1 version platform
      = ([.httpGet latest_versions_url, .logWarning msgNoMilestones], .ok none))
    ∧ (get_chromedriver_download_url 200 (.obj [("milestones", ms2)])
        version platform
      = ([.httpGet latest_versions_url,
          .logWarning (msgNoMajor ((pySplit '.' version).headD ""))], .ok none))
    ∧ (get_chromedriver_download_url 200
        (.obj [("milestones", .obj [((pySplit '.' version).headD "", dl3)])])
        version platform
      = ([.httpGet latest_versions_url, .logWarning msgNoDownloads], .ok none))
    ∧ (∃ a b, msgNoMilestones = a ++ ("milestones" ++ b))
    ∧ (∃ a b, msgNoMajor ((pySplit '.' version).headD "")
        = a ++ (((pySplit '.' version).headD "") ++ b))
    ∧ (∃ a b, msgNoDownloads = a ++ ("downloads" ++ b))
    ∧ (∃ a b, msgNoDownloads = a ++ ("chrome" ++ b))
    ∧ msgNoMilestones ≠ msgNoDownloads
    ∧ (∀ m : String, msgNoMajor m ≠ msgNoMilestones ∧ msgNoMajor m ≠ msgNoDownloads) := by
  obtain ⟨k, hk⟩ := h3
  refine ⟨?_, ?_, ?_, ?_, ?_, ?_, ?_, ?_, ?_⟩
  · simp [get_chromedriver_download_url, h1]
  · have houter : pyGetItem (Json.obj [("milestones", ms2)]) "milestones"
        = .ok ms2 := by
      simp [pyGetItem]
    simp only [get_chromedriver_download_url, houter, h2]
    simp
  · have houter : pyGetItem
        (Json.obj [("milestones",
          Json.obj [((pySplit '.' version).headD "", dl3)])]) "milestones"
        = .ok (Json.obj [((pySplit '.' version).headD "", dl3)]) := by
      simp [pyGetItem]
    have hmid : pyGetItem (Json.obj [((pySplit '.' version).headD "", dl3)])
        ((pySplit '.' version).headD "") = .ok dl3 := by
      simp [pyGetItem, List.find?_cons_of_pos, beq_self_eq_true]
    simp only [get_chromedriver_download_url, houter, hmid, hk]
    simp
  · exact ⟨"\x27",
      "\x27 key does not exist inside \x27latest_versions_url\x27 JSON response.",
      by rfl⟩
  · exact ⟨"Major version key ",
      " does not exist inside \x27latest_versions_url\x27 JSON response.", rfl⟩
  · exact ⟨"\x27",
      "\x27 or \x27chrome\x27 key(s) does not exist inside \x27latest_versions_url\x27 JSON response.",
      by rfl⟩
  · exact ⟨"\x27downloads\x27 or \x27",
      "\x27 key(s) does not exist inside \x27latest_versions_url\x27 JSON response.",
      by rfl⟩
  · decide
  · intro m
    constructor
    · exact ne_of_head _ _ (by rw [msgNoMajor_head]; decide)
    · exact ne_of_head _ _ (by rw [msgNoMajor_head]; decide)

/-- Claim C6, witness: concrete empty-object documents at each level, with
version `"123.0.0.0"` (major `"123"`) and platform `"linux64"`. -/
theorem c6_witness :
    (get_chromedriver_download_url 200 (.obj []) "123.0.0.0" "linux64"
      = ([.httpGet latest_versions_url, .logWarning msgNoMilestones], .ok none))
    ∧ (get_chromedriver_download_url 200 (.obj [("milestones", .obj [])])
        "123.0.0.0" "linux64"
      = ([.httpGet latest_versions_url, .logWarning (msgNoMajor "123")], .ok none))
    ∧ (get_chromedriver_download_url 200
        (.obj [("milestones", .obj [("123", .obj [])])]) "123.0.0.0" "linux64"
      = ([.httpGet latest_versions_url, .logWarning msgNoDownloads], .ok none)) := by
  have h := c6_theorem "123.0.0.0" "linux64" (.obj []) (.obj []) (.obj [])
    rfl rfl ⟨"downloads", rfl⟩
  exact ⟨h.1, h.2.1, h.2.2.1⟩

/-! ## Claim C4 -/

/-- Claim C4 (code bug): when `subprocess` reports a `CalledProcessError`
(non-zero exit), `get_chrome_version` logs the captured output and `main`
aborts at stage 1 with no network or filesystem event; but when the browser
executable is absent (a `FileNotFoundError`), the exception is NOT caught —
it propagates uncaught out of `get_chrome_version` and `main`, with no
failure report, although the code's own comment says it handles Chrome not
being installed. -/
theorem c4_theorem :
    (∀ (env : Env) (p m : String), env.chromeResult = .fileNotFoundError m →
      main env p = ([.runChrome], .error (.fileNotFoundError m)))
    ∧ (∀ (env : Env) (p out : String), env.chromeResult = .calledProcessError out →
      main env p = ([.runChrome, .logError ("Error: " ++ pyStrip out)], .ok ())) := by
  constructor
  · intro env p m h
    simp [main, get_chrome_version, h]
  · intro env p out h
    simp [main, get_chrome_version, h]

/-- Claim C4, witness: a concrete environment where `google-chrome` is absent
(the subprocess raises `FileNotFoundError`) crashes the whole pipeline, and a
concrete non-zero-exit environment aborts cleanly at stage 1 with only the
subprocess event and the error log in the trace. -/
theorem c4_witness :
    main (Env.mk
      (.fileNotFoundError "[Errno 2] No such file or directory: \x27google-chrome\x27")
      200 (.obj []) 200 none [] none
      (.success "/usr/local/bin/chromedriver") none none) "linux64"
    = ([.runChrome],
       .error (.fileNotFoundError
         "[Errno 2] No such file or directory: \x27google-chrome\x27"))
    ∧ main (Env.mk (.calledProcessError "google-chrome: error")
      200 (.obj []) 200 none [] none
      (.success "/usr/local/bin/chromedriver") none none) "linux64"
    = ([.runChrome, .logError "Error: google-chrome: error"], .ok ()) := by
  exact ⟨c4_theorem.1 _ "linux64" _ rfl, c4_theorem.2 _ "linux64" "google-chrome: error" rfl⟩

/-! ## Claim C5 -/

/-- Claim C5, counterexample: on a 404 archive response the fetcher does not
return a failure signal to `main`; `raise_for_status()` raises an `HTTPError`
that propagates uncaught through `download_chromedriver` AND through `main`
(whose falsy-return check on the fetcher's result is dead code), crashing the
pipeline after the two network requests. -/
theorem c5_counterexample :
    main (Env.mk (.success "Google Chrome 124.0.6367.60") 200
      (mkDoc "124" [.obj [("platform", .str "linux64"),
        ("url", .str "https://x/124.0.0.0/chrome-linux64.zip")]])
      404 none [] none (.success "/usr/local/bin/chromedriver") none none) "linux64"
    = ([.runChrome, .httpGet latest_versions_url,
        .logInfo "Starting to download chromedriver (version: 124.0.6367.60, platform: linux64)",
        .httpGet "https://x/124.0.0.0/chromedriver-linux64.zip"],
       .error (.httpError 404)) := by rfl

/-- Claim C5, amended: for every archive response with a 4xx/5xx status,
`download_chromedriver` aborts by raising an `HTTPError` carrying the status
code; the failure is an exception propagating past the fetcher's boundary,
not a returned failure signal. -/
theorem c5_theorem (status : Nat) (cl : Option Nat) (chunks : List (List Nat))
    (url : String) (h1 : 400 ≤ status) (h2 : status < 600) :
    download_chromedriver status cl chunks url
    = ([.httpGet url], .error (.httpError status)) := by
  simp [download_chromedriver, h1, h2]

/-- Claim C5, witness: status 404. -/
theorem c5_witness :
    download_chromedriver 404 none [] "https://x/124.0.0.0/chromedriver-linux64.zip"
    = ([.httpGet "https://x/124.0.0.0/chromedriver-linux64.zip"],
       .error (.httpError 404)) :=
  c5_theorem 404 none [] "https://x/124.0.0.0/chromedriver-linux64.zip"
    (by norm_num) (by norm_num)

/-! ## Claim C7 -/

lemma splitChar_ne_nil (c : Char) (l : List Char) : splitChar c l ≠ [] := by
  induction l with
  | nil => simp [splitChar]
  | cons x xs ih =>
    simp only [splitChar]
    split <;> simp

lemma splitChar_headD (c : Char) (l : List Char) :
    (splitChar c l).headD [] = l.takeWhile (fun x => x != c) := by
  induction l with
  | nil => rfl
  | cons x xs ih =>
    simp only [splitChar, List.takeWhile_cons]
    by_cases hx : x = c
    · rw [if_pos hx, List.headD_cons, if_neg (by simp [hx])]
    · rw [if_neg hx, List.headD_cons, if_pos (by simp [hx]), ih]

lemma pySplit_headD (c : Char) (s : String) :
    (pySplit c s).headD "" = String.mk (s.data.takeWhile (fun x => x != c)) := by
  unfold pySplit
  cases hsp : splitChar c s.data with
  | nil => exact absurd hsp (splitChar_ne_nil c s.data)
  | cons g gs =>
    have hh := splitChar_headD c s.data
    rw [hsp, List.headD_cons] at hh
    rw [List.map_cons, List.headD_cons, hh]

/-- Claim C7, counterexample: for an archive filename whose base name
contains dots, the returned path is NOT the filename with its extension
removed: `zip_fn.split(".")[0]` cuts at the FIRST dot, so
`"chromedriver-v1.2-linux64.zip"` yields `"chromedriver-v1/chromedriver"`
rather than the claimed `"chromedriver-v1.2-linux64/chromedriver"`. -/
theorem c7_counterexample :
    extract_zipped_file none "chromedriver-v1.2-linux64.zip"
    = ([.extract "chromedriver-v1.2-linux64.zip"],
       .ok (some "chromedriver-v1/chromedriver"))
    ∧ ("chromedriver-v1/chromedriver" : String)
        ≠ "chromedriver-v1.2-linux64/chromedriver" := by
  exact ⟨by rfl, by decide⟩

/-- Claim C7, amended: on successful extraction the returned path joins the
prefix of the archive filename BEFORE ITS FIRST DOT with `"chromedriver"`
(for dot-free base names this coincides with removing the extension). -/
theorem c7_theorem (zip_fn : String) :
    extract_zipped_file none zip_fn
    = ([.extract zip_fn],
       .ok (some (osPathJoin
         (String.mk (zip_fn.data.takeWhile (fun c => c != '.'))) "chromedriver"))) := by
  simp only [extract_zipped_file, pySplit_headD]

/-! ## Claim C8 -/

/-- Claim C8: the installer copies source onto target and then sets the
target's mode to `0o755`; it returns `True` exactly when both steps succeed,
never raises (every error is caught and returned as `False`), runs `chmod`
only after a successful copy, and logs a report on every failure. -/
theorem c8_theorem (copyErr chmodErr : Option String)
    (extracted os_loc : String) :
    (∃ b, (move_extracted_chromedriver copyErr chmodErr extracted os_loc).2 = .ok b)
    ∧ ((move_extracted_chromedriver copyErr chmodErr extracted os_loc).2 = .ok true
        ↔ copyErr = none ∧ chmodErr = none)
    ∧ (copyErr = none → chmodErr = none →
        (move_extracted_chromedriver copyErr chmodErr extracted os_loc).1
          = [.copyFile extracted os_loc, .chmod os_loc 0o755])
    ∧ (∀ e, copyErr = some e →
        (move_extracted_chromedriver copyErr chmodErr extracted os_loc).1
          = [.logError ("Error moving Chromedriver: " ++ e)])
    ∧ (∀ e, copyErr = none → chmodErr = some e →
        (move_extracted_chromedriver copyErr chmodErr extracted os_loc).1
          = [.copyFile extracted os_loc,
             .logError ("Error moving Chromedriver: " ++ e)]) := by
  cases copyErr <;> cases chmodErr <;> simp [move_extracted_chromedriver]

/-- Claim C8, witness: both steps succeed on concrete paths; the trace is the
copy followed by `chmod` with mode `0o755` (rwxr-xr-x), and the result is
`True`. -/
theorem c8_witness :
    (move_extracted_chromedriver none none "chromedriver-linux64/chromedriver"
      "/usr/local/bin/chromedriver").2 = .ok true
    ∧ (move_extracted_chromedriver none none "chromedriver-linux64/chromedriver"
      "/usr/local/bin/chromedriver").1
      = [.copyFile "chromedriver-linux64/chromedriver" "/usr/local/bin/chromedriver",
         .chmod "/usr/local/bin/chromedriver" 0o755] := by
  exact ⟨(c8_theorem none none "chromedriver-linux64/chromedriver"
      "/usr/local/bin/chromedriver").2.1.mpr ⟨rfl, rfl⟩,
    (c8_theorem none none "chromedriver-linux64/chromedriver"
      "/usr/local/bin/chromedriver").2.2.1 rfl rfl⟩

end ChromedriverUpdater
